import Mathlib

/-!
# Shallow embedding of the Lego-OS microkernel (src/main.py)

This file embeds, in Lean, the kernel/service/process subsystem of
`src/main.py`: the `Process` run wrapper, the three registered services
(`FileSystemService`, `DeviceManagerService`, `ProcessScheduler`), the
kernel primitives `register_process` / `terminate_process`, and the
kernel's message dispatch `MicroKernel.process_message`.

Modelling conventions:
- Python dicts are insertion-ordered association lists with unique keys;
  `d[k] = v` is `assocSet` (in-place update or append), `del d[k]` is
  `assocDel`, `d.get(k)` / `k in d` are `assocGet`.
- A message is a Python dict; the embedding keeps exactly the keys the
  kernel and services ever read (`service`, `operation`, `path`,
  `content`, `driver`, `pid`, `sender`, `reply_to`), each as
  `Option String` since `dict.get` yields `None` for a missing key.
- Result records are association lists from field names to `Value`, a
  small universe of the Python values the services put in results
  (`None`, strings, booleans, lists, nested dicts).
- Exceptions at the four fallible steps of `_load_driver` (module import,
  `Process(...)` construction, `register_process`, `process.start`) are
  driven by an explicit oracle argument `exc : Option LoadStep`; each
  oracle value applies exactly the side effects the Python code has
  completed before that step can raise, then takes the `except` branch.
- Threads are not run: the dispatch path of `src/main.py` never invokes a
  process target, so the registry entries model the `pid`, `name`,
  `running` and message-queue attributes only. The crash-isolation claim
  about `Process._run_wrapper` is embedded separately with the target as
  an explicit state transformer.
-/

namespace LegoOS

/-- Python values appearing in service result records. -/
inductive Value where
  | vnone : Value
  | vstr : String → Value
  | vbool : Bool → Value
  | vlist : List Value → Value
  | vdict : List (String × Value) → Value

/-- Embed `Option String` as a Python value (`None` or a string). -/
def optVal : Option String → Value
  | none => Value.vnone
  | some s => Value.vstr s

/-- Python `str()` of an optional string, as used in f-string interpolation. -/
def pyShow : Option String → String
  | none => "None"
  | some s => s

/-- Dict lookup: first binding of the key (Python `d.get(k)` / `k in d`). -/
def assocGet {α β : Type} [DecidableEq α] : List (α × β) → α → Option β
  | [], _ => none
  | (a, b) :: t, k => if a = k then some b else assocGet t k

/-- Dict write `d[k] = v`: update the first binding in place, else append
(matches Python dict insertion-order semantics). -/
def assocSet {α β : Type} [DecidableEq α] : List (α × β) → α → β → List (α × β)
  | [], k, v => [(k, v)]
  | (a, b) :: t, k, v => if a = k then (k, v) :: t else (a, b) :: assocSet t k v

/-- Dict delete `del d[k]` (our dicts keep keys unique, so filtering is
exactly the one-key removal). -/
def assocDel {α β : Type} [DecidableEq α] (d : List (α × β)) (k : α) : List (α × β) :=
  d.filter (fun p => p.1 != k)

/-- A result record returned by `process_message`: a Python dict from field
names to values. -/
abbrev ResultRec := List (String × Value)

/-- A message dict, restricted to the keys the kernel and the services read.
Every field is `Option String` because the Python code reads them with
`message.get(...)`, which yields `None` when absent. -/
structure Message where
  service : Option String := none
  operation : Option String := none
  path : Option String := none
  content : Option String := none
  driver : Option String := none
  pid : Option String := none
  sender : Option String := none
  reply_to : Option String := none
deriving DecidableEq

/-- Outcome of running a process target inside `_run_wrapper`: normal
return, or an exception carrying `str(e)`. -/
inductive RunOutcome where
  | ok : RunOutcome
  | exn : String → RunOutcome
deriving DecidableEq

/-- A reply envelope the kernel enqueues on a process's message queue
(`src/main.py` lines 419-424 and 432-439). The constant `"type": "reply"`
key is present on both shapes and not separately represented. The normal
reply carries a `"service"` key; the unknown-service error reply does not,
hence `service : Option String` with `none` meaning the key is absent. -/
structure Reply where
  original_request : Message
  result : ResultRec
  service : Option String

/-- The registry view of a `Process` object: its `pid`, `name`, `running`
flag and message queue (a FIFO of reply dicts). The `target`/`args`
attributes are never invoked on the dispatch path and are not represented
here; the run wrapper is modelled separately. -/
structure Proc where
  pid : String
  name : String
  running : Bool
  mailbox : List Reply

/-- A device entry of `DeviceManagerService.devices`: the dict
`{"status": ..., "driver": ..., "loaded": ...}` with an optional `"pid"`
key (`none` = key absent, as after `del self.devices[name]["pid"]`). -/
structure DeviceEntry where
  status : String
  driver : String
  loaded : Bool
  pid : Option String
deriving DecidableEq

/-- The mutable state of the kernel and its three registered services:
`MicroKernel.processes`, `FileSystemService.files` (dict keyed by the
possibly-`None` path, holding the possibly-`None` content),
`DeviceManagerService.devices` and `DeviceManagerService.driver_processes`. -/
structure KState where
  processes : List (String × Proc)
  fsFiles : List (Option String × Option String)
  devices : List (String × DeviceEntry)
  driver_processes : List (String × String)

/-- The four steps of `_load_driver`'s `try` block that can raise, each
constructor carrying `str(e)` of the raised exception. -/
inductive LoadStep where
  | importDriver : String → LoadStep
  | constructProcess : String → LoadStep
  | registerProcess : String → LoadStep
  | startProcess : String → LoadStep
deriving DecidableEq

/-- Embeds `FileSystemService.process_message` (src/main.py lines 85-123), acting
on the service's `files` dict. -/
def FileSystemService.process_message
    (files : List (Option String × Option String)) (m : Message) :
    List (Option String × Option String) × ResultRec :=
  if m.operation = some "write" then
    (assocSet files m.path m.content,
     [("status", Value.vstr "success"), ("operation", Value.vstr "write"),
      ("path", optVal m.path)])
  else if m.operation = some "read" then
    match assocGet files m.path with
    | some c =>
        (files,
         [("status", Value.vstr "success"), ("operation", Value.vstr "read"),
          ("path", optVal m.path), ("content", optVal c)])
    | none =>
        (files,
         [("status", Value.vstr "error"), ("operation", Value.vstr "read"),
          ("path", optVal m.path), ("error", Value.vstr "File not found")])
  else if m.operation = some "list" then
    (files,
     [("status", Value.vstr "success"), ("operation", Value.vstr "list"),
      ("files", Value.vlist (files.map (fun p => optVal p.1)))])
  else
    (files,
     [("status", Value.vstr "error"), ("operation", optVal m.operation),
      ("error", Value.vstr "Unknown operation")])

/-- Embeds `MicroKernel.register_process` (src/main.py lines 359-362):
`self.processes[process.pid] = process`. -/
def MicroKernel.register_process (st : KState) (p : Proc) : KState :=
  { st with processes := assocSet st.processes p.pid p }

/-- Embeds `MicroKernel.terminate_process` (src/main.py lines 368-379), rendered
sequentially: if the pid is registered, `process.terminate()` sets
`running = False`, then after the `time.sleep(0.1)` grace wait the entry —
still present in this single-threaded rendering — is deleted; returns
whether the pid existed. -/
def MicroKernel.terminate_process (st : KState) (pid : String) : KState × Bool :=
  match assocGet st.processes pid with
  | some pr =>
      let st1 :=
        { st with processes := assocSet st.processes pid { pr with running := false } }
      ({ st1 with processes := assocDel st1.processes pid }, true)
  | none => (st, false)

/-- The `(driver_name, entry)` pair for `message.get("driver")`, when
`driver_name in self.devices` (a `None` name is never a key). -/
def devLookup (st : KState) (dn : Option String) : Option (String × DeviceEntry) :=
  match dn with
  | none => none
  | some n => (assocGet st.devices n).map (fun e => (n, e))

/-- The freshly constructed driver `Process` of `_load_driver`
(src/main.py lines 202-208): pid from `uuid4`, name `driver-<name>`, not
yet running, empty queue. -/
def newDriverProc (freshPid n : String) (running : Bool) : Proc :=
  { pid := freshPid, name := "driver-" ++ n, running := running, mailbox := [] }

/-- The error result of `_load_driver`'s `except` clause
(src/main.py lines 227-234). -/
def loadDriverExcResult (n msg : String) : ResultRec :=
  [("status", Value.vstr "error"), ("operation", Value.vstr "load_driver"),
   ("driver", Value.vstr n), ("error", Value.vstr msg)]

/-- Embeds `DeviceManagerService._load_driver` (src/main.py lines 179-234).
The oracle `exc` picks which step of the `try` block raises (if any);
the state effects completed before the raising step persist:
- `importDriver` / `constructProcess`: nothing has executed yet
  (`importlib.import_module`, or `Process(...)` — including the
  `driver_module.run` attribute access — raises);
- `registerProcess`: the registry assignment `self.processes[pid] = process`
  has executed (a raise afterwards inside `register_process`);
- `startProcess`: the process is registered and `start` has already set
  `running = True` when `Thread(...)`/`thread.start()` raises.
The device entry and `driver_processes` are only updated after `start`
returns, i.e. in the no-exception branch. -/
def DeviceManagerService._load_driver (st : KState) (driver_name : Option String)
    (exc : Option LoadStep) (freshPid : String) : KState × ResultRec :=
  match devLookup st driver_name with
  | none =>
      (st, [("status", Value.vstr "error"), ("operation", Value.vstr "load_driver"),
            ("driver", optVal driver_name), ("error", Value.vstr "Driver not found")])
  | some (n, entry) =>
      if entry.loaded then
        (st, [("status", Value.vstr "success"), ("operation", Value.vstr "load_driver"),
              ("driver", Value.vstr n), ("message", Value.vstr "Driver already loaded")])
      else
        match exc with
        | some (LoadStep.importDriver msg) => (st, loadDriverExcResult n msg)
        | some (LoadStep.constructProcess msg) => (st, loadDriverExcResult n msg)
        | some (LoadStep.registerProcess msg) =>
            (MicroKernel.register_process st (newDriverProc freshPid n false),
             loadDriverExcResult n msg)
        | some (LoadStep.startProcess msg) =>
            (MicroKernel.register_process st (newDriverProc freshPid n true),
             loadDriverExcResult n msg)
        | none =>
            let st1 := MicroKernel.register_process st (newDriverProc freshPid n true)
            let entry1 :=
              { entry with loaded := true, status := "active", pid := some freshPid }
            ({ st1 with devices := assocSet st1.devices n entry1,
                        driver_processes := assocSet st1.driver_processes n freshPid },
             [("status", Value.vstr "success"), ("operation", Value.vstr "load_driver"),
              ("driver", Value.vstr n), ("pid", Value.vstr freshPid)])

/-- The error result of `_unload_driver`'s `except` clause
(src/main.py lines 273-280). -/
def unloadDriverExcResult (n msg : String) : ResultRec :=
  [("status", Value.vstr "error"), ("operation", Value.vstr "unload_driver"),
   ("driver", Value.vstr n), ("error", Value.vstr msg)]

/-- Embeds `DeviceManagerService._unload_driver` (src/main.py lines 236-280).
Inside the `try` block, `self.driver_processes[driver_name]` raises
`KeyError` when the name is missing (`str(e)` is the quoted key), and
`del self.devices[driver_name]["pid"]` raises `KeyError` when the entry
has no `pid` key — in that case the `loaded`/`status` assignments just
before it have already been applied when the `except` clause runs. -/
def DeviceManagerService._unload_driver (st : KState) (driver_name : Option String) :
    KState × ResultRec :=
  match devLookup st driver_name with
  | none =>
      (st, [("status", Value.vstr "error"), ("operation", Value.vstr "unload_driver"),
            ("driver", optVal driver_name), ("error", Value.vstr "Driver not found")])
  | some (n, entry) =>
      if entry.loaded = false then
        (st, [("status", Value.vstr "success"), ("operation", Value.vstr "unload_driver"),
              ("driver", Value.vstr n), ("message", Value.vstr "Driver not loaded")])
      else
        match assocGet st.driver_processes n with
        | none => (st, unloadDriverExcResult n ("'" ++ n ++ "'"))
        | some tpid =>
            let st1 := (MicroKernel.terminate_process st tpid).1
            let entry1 := { entry with loaded := false, status := "available" }
            match entry.pid with
            | none =>
                ({ st1 with devices := assocSet st1.devices n entry1 },
                 unloadDriverExcResult n "'pid'")
            | some _ =>
                ({ st1 with
                    devices := assocSet st1.devices n { entry1 with pid := none },
                    driver_processes := assocDel st1.driver_processes n },
                 [("status", Value.vstr "success"),
                  ("operation", Value.vstr "unload_driver"),
                  ("driver", Value.vstr n)])

/-- A device entry as the Python dict that `list_devices` snapshots: the
`pid` key appears only when set. -/
def deviceVal (e : DeviceEntry) : Value :=
  Value.vdict
    ([("status", Value.vstr e.status), ("driver", Value.vstr e.driver),
      ("loaded", Value.vbool e.loaded)] ++
     (match e.pid with
      | some p => [("pid", Value.vstr p)]
      | none => []))

/-- Embeds `DeviceManagerService.process_message` (src/main.py lines 154-177). -/
def DeviceManagerService.process_message (st : KState) (m : Message)
    (exc : Option LoadStep) (freshPid : String) : KState × ResultRec :=
  if m.operation = some "load_driver" then
    DeviceManagerService._load_driver st m.driver exc freshPid
  else if m.operation = some "unload_driver" then
    DeviceManagerService._unload_driver st m.driver
  else if m.operation = some "list_devices" then
    (st, [("status", Value.vstr "success"), ("operation", Value.vstr "list_devices"),
          ("devices", Value.vdict (st.devices.map (fun p => (p.1, deviceVal p.2))))])
  else
    (st, [("status", Value.vstr "error"), ("operation", optVal m.operation),
          ("error", Value.vstr "Unknown operation")])

/-- Embeds `ProcessScheduler.process_message` (src/main.py lines 288-321).
`terminate_process` with a missing `pid` key passes `None` to the kernel,
which is never a registry key, so it reports `False`. -/
def ProcessScheduler.process_message (st : KState) (m : Message) :
    KState × ResultRec :=
  if m.operation = some "list_processes" then
    (st, [("status", Value.vstr "success"), ("operation", Value.vstr "list_processes"),
          ("processes", Value.vlist (st.processes.map (fun p =>
             Value.vdict [("pid", Value.vstr p.1), ("name", Value.vstr p.2.name),
                          ("running", Value.vbool p.2.running)])))])
  else if m.operation = some "terminate_process" then
    let res := match m.pid with
      | some tp => MicroKernel.terminate_process st tp
      | none => (st, false)
    (res.1,
     [("status", Value.vstr (if res.2 then "success" else "error")),
      ("operation", Value.vstr "terminate_process"),
      ("pid", optVal m.pid),
      ("error", if res.2 then Value.vnone
                else Value.vstr "Process not found or could not be terminated")])
  else
    (st, [("status", Value.vstr "error"), ("operation", optVal m.operation),
          ("error", Value.vstr "Unknown operation")])

/-- The service registry as `_register_core_services` (src/main.py lines
347-351) leaves it: exactly the three built-in service names. -/
def registeredServices : List String := ["filesystem", "device_manager", "scheduler"]

/-- Routing `if service_name in self.services: result =
service.process_message(message)` (src/main.py lines 410-415): the updated
state plus `some result` when the service name is registered, the
unchanged state and no result otherwise. -/
def serviceStep (st : KState) (m : Message) (exc : Option LoadStep)
    (freshPid : String) : KState × Option ResultRec :=
  match m.service with
  | some s =>
      if s = "filesystem" then
        let fr := FileSystemService.process_message st.fsFiles m
        ({ st with fsFiles := fr.1 }, some fr.2)
      else if s = "device_manager" then
        let r := DeviceManagerService.process_message st m exc freshPid
        (r.1, some r.2)
      else if s = "scheduler" then
        let r := ProcessScheduler.process_message st m
        (r.1, some r.2)
      else (st, none)
  | none => (st, none)

/-- The reply envelope the kernel builds: the normal reply wraps the
service result (src/main.py lines 419-424); when no service handled the
message, the error reply of lines 432-439, whose result dict has only
`status` and `error` keys and which itself carries no `service` key. -/
def mkReply (m : Message) (res : Option ResultRec) : Reply :=
  match res with
  | some r => { original_request := m, result := r, service := m.service }
  | none =>
      { original_request := m,
        result := [("status", Value.vstr "error"),
                   ("error", Value.vstr ("Service not found: " ++ pyShow m.service))],
        service := none }

/-- Embeds `self.processes[reply_to].send_message(reply)`: append to that
process's FIFO message queue. -/
def enqueueReply (st : KState) (rt : String) (rep : Reply) : KState :=
  match assocGet st.processes rt with
  | some pr =>
      { st with processes :=
          assocSet st.processes rt { pr with mailbox := pr.mailbox ++ [rep] } }
  | none => st

/-- Embeds `MicroKernel.process_message` (src/main.py lines 404-440): route to the
registered service (if any), then — under the guard
`if reply_to and reply_to in self.processes`, i.e. a non-`None`, non-empty
`reply_to` registered *after* the service ran — enqueue the reply.
Returns the final state together with the list of deliveries performed
(pid, reply), which is empty exactly when nothing was enqueued. -/
def MicroKernel.process_message (st : KState) (m : Message)
    (exc : Option LoadStep) (freshPid : String) : KState × List (String × Reply) :=
  let sp := serviceStep st m exc freshPid
  let rep := mkReply m sp.2
  match m.reply_to with
  | some rt =>
      if rt ≠ "" ∧ (assocGet sp.1.processes rt).isSome then
        (enqueueReply sp.1 rt rep, [(rt, rep)])
      else (sp.1, [])
  | none => (sp.1, [])

/-- Embeds `Process._run_wrapper` (src/main.py lines 37-44). The target — which
receives `self` and may mutate it — is an explicit state transformer
returning the mutated process attributes and its outcome. The wrapper
catches an exception, logging `str(e)` with the process name and pid
(the `logging.error` f-string of line 42), and the `finally` clause sets
`running = False` on every path. -/
def Process._run_wrapper (p : Proc) (target : Proc → Proc × RunOutcome) :
    Proc × List String :=
  let tr := target p
  let logs := match tr.2 with
    | RunOutcome.ok => []
    | RunOutcome.exn e =>
        ["Process " ++ tr.1.name ++ " (PID: " ++ tr.1.pid ++ ") crashed: " ++ e]
  ({ tr.1 with running := false }, logs)

/-- The `status` field of a result record is exactly `"success"` or
`"error"`. -/
def statusOk (r : ResultRec) : Prop :=
  assocGet r "status" = some (Value.vstr "success") ∨
  assocGet r "status" = some (Value.vstr "error")

/-- The `(service, operation)` pairs recognized by the three registered
services (the non-default branches of the three `process_message`
implementations). -/
def recognizedPairs : List (String × String) :=
  [("filesystem", "write"), ("filesystem", "read"), ("filesystem", "list"),
   ("device_manager", "load_driver"), ("device_manager", "unload_driver"),
   ("device_manager", "list_devices"),
   ("scheduler", "list_processes"), ("scheduler", "terminate_process")]

/-- A concrete registered process, used in concrete evaluations. -/
def procA : Proc := { pid := "p1", name := "proc-a", running := true, mailbox := [] }

/-- A concrete device entry in the freshly discovered state
(`_discover_drivers` sets `status = "available"`, `loaded = False`,
and no `pid` key). -/
def devA : DeviceEntry :=
  { status := "available", driver := "heart_rate", loaded := false, pid := none }

/-- A concrete kernel state: one live process, one discovered driver,
an empty file store. -/
def stA : KState :=
  { processes := [("p1", procA)], fsFiles := [],
    devices := [("heart_rate", devA)], driver_processes := [] }

/-- A concrete message naming a service that is not registered, with a
live reply target. -/
def mUnknownService : Message := { service := some "nosuch", reply_to := some "p1" }

/-- A concrete process target that raises (outcome `str(e) = "boom"`)
without mutating the process. -/
def crashTarget : Proc → Proc × RunOutcome := fun q => (q, RunOutcome.exn "boom")

lemma assocGet_assocSet {α β : Type} [DecidableEq α]
    (d : List (α × β)) (k q : α) (v : β) :
    assocGet (assocSet d k v) q = if q = k then some v else assocGet d q := by
  induction d with
  | nil =>
    by_cases h : q = k
    · subst h; simp [assocSet, assocGet]
    · simp [assocSet, assocGet, h, Ne.symm h]
  | cons a t ih =>
    obtain ⟨a1, a2⟩ := a
    by_cases hak : a1 = k
    · subst hak
      by_cases hq : q = a1
      · subst hq; simp [assocSet, assocGet]
      · simp [assocSet, assocGet, hq, Ne.symm hq]
    · by_cases hq : q = a1
      · subst hq
        simp [assocSet, assocGet, hak]
      · simp [assocSet, assocGet, hak, hq, Ne.symm hq, ih]

lemma assocGet_assocSet_self {α β : Type} [DecidableEq α]
    (d : List (α × β)) (k : α) (v : β) :
    assocGet (assocSet d k v) k = some v := by
  simp [assocGet_assocSet]

lemma assocGet_assocDel_self {α β : Type} [DecidableEq α]
    (d : List (α × β)) (k : α) :
    assocGet (assocDel d k) k = none := by
  induction d with
  | nil => simp [assocDel, assocGet]
  | cons a t ih =>
    obtain ⟨a1, a2⟩ := a
    by_cases hak : a1 = k
    · subst hak
      simpa [assocDel, assocGet] using ih
    · simpa [assocDel, assocGet, hak] using ih

lemma optVal_mem_assocSet_keys (d : List (Option String × Option String))
    (k v : Option String) :
    optVal k ∈ (assocSet d k v).map (fun q => optVal q.1) := by
  induction d with
  | nil => simp [assocSet]
  | cons a t ih =>
    obtain ⟨a1, a2⟩ := a
    by_cases hak : a1 = k
    · simp [assocSet, hak]
    · simp only [assocSet, if_neg hak, List.map_cons, List.mem_cons]
      exact Or.inr ih

lemma fs_shape (files : List (Option String × Option String)) (m : Message) :
    statusOk (FileSystemService.process_message files m).2 ∧
    assocGet (FileSystemService.process_message files m).2 "operation" =
      some (optVal m.operation) := by
  unfold FileSystemService.process_message statusOk
  split_ifs with h1 h2 h3
  · rw [h1]; exact ⟨Or.inl rfl, rfl⟩
  · rw [h2]
    cases hc : assocGet files m.path with
    | none => exact ⟨Or.inr rfl, rfl⟩
    | some c => exact ⟨Or.inl rfl, rfl⟩
  · rw [h3]; exact ⟨Or.inl rfl, rfl⟩
  · exact ⟨Or.inr rfl, rfl⟩

lemma dev_shape (st : KState) (m : Message) (exc : Option LoadStep) (fp : String) :
    statusOk (DeviceManagerService.process_message st m exc fp).2 ∧
    assocGet (DeviceManagerService.process_message st m exc fp).2 "operation" =
      some (optVal m.operation) := by
  unfold DeviceManagerService.process_message statusOk
  split_ifs with h1 h2 h3
  · rw [h1]
    unfold DeviceManagerService._load_driver
    cases hd : devLookup st m.driver with
    | none => exact ⟨Or.inr rfl, rfl⟩
    | some p =>
      obtain ⟨n, entry⟩ := p
      by_cases hl : entry.loaded = true
      · simp only [if_pos hl]
        exact ⟨Or.inl rfl, rfl⟩
      · simp only [if_neg hl]
        cases exc with
        | none => exact ⟨Or.inl rfl, rfl⟩
        | some s => cases s <;> exact ⟨Or.inr rfl, rfl⟩
  · rw [h2]
    unfold DeviceManagerService._unload_driver
    cases hd : devLookup st m.driver with
    | none => exact ⟨Or.inr rfl, rfl⟩
    | some p =>
      obtain ⟨n, entry⟩ := p
      by_cases hl : entry.loaded = false
      · simp only [if_pos hl]
        exact ⟨Or.inl rfl, rfl⟩
      · simp only [if_neg hl]
        cases hdp : assocGet st.driver_processes n with
        | none => exact ⟨Or.inr rfl, rfl⟩
        | some tpid =>
          cases hep : entry.pid with
          | none => exact ⟨Or.inr rfl, rfl⟩
          | some q => exact ⟨Or.inl rfl, rfl⟩
  · rw [h3]; exact ⟨Or.inl rfl, rfl⟩
  · exact ⟨Or.inr rfl, rfl⟩

lemma sched_shape (st : KState) (m : Message) :
    statusOk (ProcessScheduler.process_message st m).2 ∧
    assocGet (ProcessScheduler.process_message st m).2 "operation" =
      some (optVal m.operation) := by
  unfold ProcessScheduler.process_message statusOk
  split_ifs with h1 h2
  · rw [h1]; exact ⟨Or.inl rfl, rfl⟩
  · rw [h2]
    dsimp only
    cases hp : m.pid with
    | none => exact ⟨Or.inr rfl, rfl⟩
    | some tp =>
      cases hb : (MicroKernel.terminate_process st tp).2 with
      | false => exact ⟨Or.inr rfl, rfl⟩
      | true => exact ⟨Or.inl rfl, rfl⟩
  · exact ⟨Or.inr rfl, rfl⟩

lemma serviceStep_shape (st : KState) (m : Message) (exc : Option LoadStep)
    (fp : String) (r : ResultRec) (h : (serviceStep st m exc fp).2 = some r) :
    statusOk r ∧ assocGet r "operation" = some (optVal m.operation) := by
  unfold serviceStep at h
  rcases hs : m.service with _ | s
  · rw [hs] at h; cases h
  · rw [hs] at h
    dsimp only at h
    split_ifs at h with h1 h2 h3
    · obtain rfl := Option.some.inj h
      exact fs_shape st.fsFiles m
    · obtain rfl := Option.some.inj h
      exact dev_shape st m exc fp
    · obtain rfl := Option.some.inj h
      exact sched_shape st m

lemma serviceStep_registered (st : KState) (m : Message) (exc : Option LoadStep)
    (fp : String) (sv : String) (hs : m.service = some sv)
    (hreg : sv ∈ registeredServices) :
    ∃ r, (serviceStep st m exc fp).2 = some r := by
  unfold serviceStep
  rw [hs]
  simp only [registeredServices, List.mem_cons, List.not_mem_nil, or_false] at hreg
  rcases hreg with rfl | rfl | rfl
  · exact ⟨_, rfl⟩
  · exact ⟨_, rfl⟩
  · exact ⟨_, rfl⟩

lemma serviceStep_not_registered (st : KState) (m : Message) (exc : Option LoadStep)
    (fp : String) (h : ∀ sv, m.service = some sv → sv ∉ registeredServices) :
    serviceStep st m exc fp = (st, none) := by
  unfold serviceStep
  rcases hs : m.service with _ | s
  · rfl
  · have hns := h s hs
    simp only [registeredServices, List.mem_cons, List.not_mem_nil, or_false] at hns
    push_neg at hns
    obtain ⟨hn1, hn2, hn3⟩ := hns
    simp [hn1, hn2, hn3]

lemma process_message_reply_to_none (st : KState) (m : Message)
    (exc : Option LoadStep) (fp : String) (h : m.reply_to = none) :
    MicroKernel.process_message st m exc fp = ((serviceStep st m exc fp).1, []) := by
  unfold MicroKernel.process_message
  rw [h]

lemma process_message_reply_to_some (st : KState) (m : Message)
    (exc : Option LoadStep) (fp : String) (rt : String) (h : m.reply_to = some rt) :
    MicroKernel.process_message st m exc fp =
      (if rt ≠ "" ∧ (assocGet (serviceStep st m exc fp).1.processes rt).isSome
       then (enqueueReply (serviceStep st m exc fp).1 rt
               (mkReply m (serviceStep st m exc fp).2),
             [(rt, mkReply m (serviceStep st m exc fp).2)])
       else ((serviceStep st m exc fp).1, [])) := by
  unfold MicroKernel.process_message
  rw [h]

lemma assocGet_enqueueReply_self (st : KState) (rt : String) (rep : Reply)
    (h : (assocGet st.processes rt).isSome) :
    (assocGet (enqueueReply st rt rep).processes rt).isSome := by
  unfold enqueueReply
  cases hp : assocGet st.processes rt with
  | none => rw [hp] at h; simp at h
  | some pr => simp [assocGet_assocSet]

/-- C1: for every message whose `service` names a registered service and
whose `operation` is one that service recognizes (filesystem:
write/read/list; device_manager: load_driver/unload_driver/list_devices;
scheduler: list_processes/terminate_process), the result record returned
by that service's `process_message` has a `status` field equal to exactly
`"success"` or `"error"`, and its `operation` field equals the request's
operation. -/
theorem recognized_operation_result_shape
    (st : KState) (m : Message) (exc : Option LoadStep) (fp : String)
    (sv op : String) (hs : m.service = some sv) (ho : m.operation = some op)
    (hrec : (sv, op) ∈ recognizedPairs) :
    ∃ r, (serviceStep st m exc fp).2 = some r ∧ statusOk r ∧
      assocGet r "operation" = some (Value.vstr op) := by
  have hreg : sv ∈ registeredServices := by
    simp only [recognizedPairs, List.mem_cons, List.not_mem_nil, or_false,
      Prod.mk.injEq] at hrec
    rcases hrec with ⟨rfl, -⟩ | ⟨rfl, -⟩ | ⟨rfl, -⟩ | ⟨rfl, -⟩ | ⟨rfl, -⟩ |
      ⟨rfl, -⟩ | ⟨rfl, -⟩ | ⟨rfl, -⟩ <;> simp [registeredServices]
  obtain ⟨r, hr⟩ := serviceStep_registered st m exc fp sv hs hreg
  have hsh := serviceStep_shape st m exc fp r hr
  refine ⟨r, hr, hsh.1, ?_⟩
  rw [hsh.2, ho]
  rfl

/-- Witness for C1: the scheduler's `list_processes` on the concrete
state `stA`. -/
theorem recognized_operation_result_shape_witness :
    ({ service := some "scheduler", operation := some "list_processes" } :
        Message).service = some "scheduler" ∧
    ∃ r, (serviceStep stA
        { service := some "scheduler", operation := some "list_processes" }
        none "q").2 = some r ∧ statusOk r ∧
      assocGet r "operation" = some (Value.vstr "list_processes") :=
  ⟨rfl, recognized_operation_result_shape stA
    { service := some "scheduler", operation := some "list_processes" } none "q"
    "scheduler" "list_processes" rfl rfl (by decide)⟩

/-- C5: writing content `c` to path `p` and then reading `p` with no
intervening write returns `status = "success"` and `content = c` (at
`p = "/x"`, `c = "a"` this is the spec's round-trip example, an instance
of this theorem). -/
theorem write_then_read_roundtrip
    (files : List (Option String × Option String)) (p c : Option String) :
    assocGet (FileSystemService.process_message
        (FileSystemService.process_message files
            { operation := some "write", path := p, content := c }).1
        { operation := some "read", path := p }).2 "status" =
      some (Value.vstr "success") ∧
    assocGet (FileSystemService.process_message
        (FileSystemService.process_message files
            { operation := some "write", path := p, content := c }).1
        { operation := some "read", path := p }).2 "content" =
      some (optVal c) := by
  have hw : (FileSystemService.process_message files
      { operation := some "write", path := p, content := c }).1 =
      assocSet files p c := rfl
  rw [hw]
  have hr : FileSystemService.process_message (assocSet files p c)
      { operation := some "read", path := p } =
      (match assocGet (assocSet files p c) p with
       | some c0 =>
           (assocSet files p c,
            [("status", Value.vstr "success"), ("operation", Value.vstr "read"),
             ("path", optVal p), ("content", optVal c0)])
       | none =>
           (assocSet files p c,
            [("status", Value.vstr "error"), ("operation", Value.vstr "read"),
             ("path", optVal p), ("error", Value.vstr "File not found")])) := rfl
  rw [hr, assocGet_assocSet_self]
  exact ⟨rfl, rfl⟩

/-- C10: the filesystem `write` operation never returns an error: even
when the message lacks a `path` or `content` key it stores the
possibly-absent content under the possibly-absent path key, returns
`status = "success"` echoing the possibly-absent path, and that key then
appears in subsequent `list` results. -/
theorem write_always_succeeds
    (files : List (Option String × Option String)) (m : Message)
    (h : m.operation = some "write") :
    assocGet (FileSystemService.process_message files m).2 "status" =
      some (Value.vstr "success") ∧
    assocGet (FileSystemService.process_message files m).2 "path" =
      some (optVal m.path) ∧
    (FileSystemService.process_message files m).1 =
      assocSet files m.path m.content ∧
    assocGet (FileSystemService.process_message
        (FileSystemService.process_message files m).1
        { operation := some "list" }).2 "files" =
      some (Value.vlist
        ((assocSet files m.path m.content).map (fun q => optVal q.1))) ∧
    optVal m.path ∈ (assocSet files m.path m.content).map (fun q => optVal q.1) := by
  have hw : FileSystemService.process_message files m =
      (assocSet files m.path m.content,
       [("status", Value.vstr "success"), ("operation", Value.vstr "write"),
        ("path", optVal m.path)]) := by
    unfold FileSystemService.process_message
    rw [h]
    rw [if_pos rfl]
  rw [hw]
  exact ⟨rfl, rfl, rfl, rfl, optVal_mem_assocSet_keys files m.path m.content⟩

/-- Witness for C10: a write message with no `path` and no `content` key
on an empty store. -/
theorem write_always_succeeds_witness :
    ({ operation := some "write" } : Message).operation = some "write" ∧
    assocGet (FileSystemService.process_message []
        { operation := some "write" }).2 "status" = some (Value.vstr "success") ∧
    optVal ({ operation := some "write" } : Message).path ∈
      (assocSet ([] : List (Option String × Option String))
          ({ operation := some "write" } : Message).path
          ({ operation := some "write" } : Message).content).map
        (fun q => optVal q.1) :=
  ⟨rfl, (write_always_succeeds [] { operation := some "write" } rfl).1,
   (write_always_succeeds [] { operation := some "write" } rfl).2.2.2.2⟩

/-- C2 counterexample, refuting at concrete inputs both parts of the
claim that every result record the kernel produces or relays has a
`status` in `{"success", "error"}` AND an `operation` field of type
string: (i) dispatching `{service: "nosuch", reply_to: "p1"}` (an
unregistered service name, a live reply target) delivers exactly one
reply whose result record has `status = "error"` but NO `operation`
field at all; (ii) dispatching `{service: "filesystem", reply_to: "p1"}`
(a registered service, but no `operation` key in the message) delivers a
reply whose result record has an `operation` field holding the absent
marker `None` — present, but not a string. -/
theorem result_operation_field_counterexample :
    (MicroKernel.process_message stA mUnknownService none "q").2.map
        (fun d => (assocGet d.2.result "status", assocGet d.2.result "operation")) =
      [(some (Value.vstr "error"), none)] ∧
    (MicroKernel.process_message stA
        { service := some "filesystem", reply_to := some "p1" } none "q").2.map
        (fun d => assocGet d.2.result "operation") =
      [some Value.vnone] := ⟨rfl, rfl⟩

/-- C2 (amended): every result record a registered service returns has a
`status` field equal to exactly `"success"` or `"error"` and an
`operation` field whose value equals the request's operation value — a
string whenever the request's `operation` is a string, and the absent
marker `None` when the message has no `operation` key; the kernel relays
that record unchanged in its reply, whose result therefore has the same
`status` shape; but the error reply sent when the service name is not
registered has `status = "error"` and no `operation` field. -/
theorem result_record_shape
    (st : KState) (m : Message) (exc : Option LoadStep) (fp : String) :
    (∀ r, (serviceStep st m exc fp).2 = some r →
        statusOk r ∧ assocGet r "operation" = some (optVal m.operation)) ∧
    (∀ d ∈ (MicroKernel.process_message st m exc fp).2,
        statusOk d.2.result ∧
        ∀ r, (serviceStep st m exc fp).2 = some r → d.2.result = r) ∧
    ((serviceStep st m exc fp).2 = none →
        ∀ d ∈ (MicroKernel.process_message st m exc fp).2,
          assocGet d.2.result "status" = some (Value.vstr "error") ∧
          assocGet d.2.result "operation" = none) := by
  refine ⟨?_, ?_, ?_⟩
  · intro r hr
    exact serviceStep_shape st m exc fp r hr
  · intro d hd
    rcases hrt : m.reply_to with _ | rt
    · rw [process_message_reply_to_none st m exc fp hrt] at hd
      exact absurd hd (List.not_mem_nil d)
    · rw [process_message_reply_to_some st m exc fp rt hrt] at hd
      split_ifs at hd with hg
      · obtain rfl := List.mem_singleton.mp hd
        constructor
        · cases hr2 : (serviceStep st m exc fp).2 with
          | some r => exact (serviceStep_shape st m exc fp r hr2).1
          | none => exact Or.inr rfl
        · intro r hr
          dsimp only
          rw [hr]
          rfl
      · exact absurd hd (List.not_mem_nil d)
  · intro hn d hd
    rcases hrt : m.reply_to with _ | rt
    · rw [process_message_reply_to_none st m exc fp hrt] at hd
      exact absurd hd (List.not_mem_nil d)
    · rw [process_message_reply_to_some st m exc fp rt hrt] at hd
      split_ifs at hd with hg
      · obtain rfl := List.mem_singleton.mp hd
        dsimp only
        rw [hn]
        exact ⟨rfl, rfl⟩
      · exact absurd hd (List.not_mem_nil d)

/-- Witness for C2 (amended), at the concrete state `stA` and a
`filesystem list` request: the returned record, its `status`, and its
`operation` field echoing the request's operation. -/
theorem result_record_shape_witness :
    statusOk [("status", Value.vstr "success"), ("operation", Value.vstr "list"),
              ("files", Value.vlist [])] ∧
    assocGet [("status", Value.vstr "success"), ("operation", Value.vstr "list"),
              ("files", Value.vlist ([] : List Value))] "operation" =
      some (optVal ({ service := some "filesystem", operation := some "list" } :
        Message).operation) :=
  (result_record_shape stA
      { service := some "filesystem", operation := some "list" } none "q").1
    [("status", Value.vstr "success"), ("operation", Value.vstr "list"),
     ("files", Value.vlist [])] rfl

/-- C3: a reply is enqueued only to a non-empty `reply_to` that is a key
of the process registry at the moment of delivery (after the service
ran); with an absent, empty or unregistered `reply_to`, no reply is
enqueued anywhere and dispatch completes without error in exactly the
post-service state. -/
theorem reply_only_to_live_registered_target
    (st : KState) (m : Message) (exc : Option LoadStep) (fp : String) :
    (∀ d ∈ (MicroKernel.process_message st m exc fp).2,
        m.reply_to = some d.1 ∧ d.1 ≠ "" ∧
        (assocGet (serviceStep st m exc fp).1.processes d.1).isSome ∧
        (assocGet (MicroKernel.process_message st m exc fp).1.processes d.1).isSome) ∧
    ((match m.reply_to with
      | none => True
      | some rt => rt = "" ∨
          assocGet (serviceStep st m exc fp).1.processes rt = none) →
      MicroKernel.process_message st m exc fp = ((serviceStep st m exc fp).1, [])) := by
  constructor
  · intro d hd
    rcases hrt : m.reply_to with _ | rt
    · rw [process_message_reply_to_none st m exc fp hrt] at hd
      exact absurd hd (List.not_mem_nil d)
    · rw [process_message_reply_to_some st m exc fp rt hrt] at hd
      split_ifs at hd with hg
      · obtain rfl := List.mem_singleton.mp hd
        refine ⟨rfl, hg.1, hg.2, ?_⟩
        rw [process_message_reply_to_some st m exc fp rt hrt, if_pos hg]
        exact assocGet_enqueueReply_self _ rt _ hg.2
      · exact absurd hd (List.not_mem_nil d)
  · intro hcond
    rcases hrt : m.reply_to with _ | rt
    · exact process_message_reply_to_none st m exc fp hrt
    · rw [hrt] at hcond
      dsimp only at hcond
      rw [process_message_reply_to_some st m exc fp rt hrt]
      have hng : ¬(rt ≠ "" ∧
          (assocGet (serviceStep st m exc fp).1.processes rt).isSome = true) := by
        rcases hcond with h1 | h2
        · intro hc; exact hc.1 h1
        · intro hc
          rw [h2] at hc
          simp at hc
      rw [if_neg hng]

/-- Witness for C3: a `filesystem list` message with no `reply_to`
delivers nothing and ends in the post-service state. -/
theorem reply_only_to_live_registered_target_witness :
    MicroKernel.process_message stA
        { service := some "filesystem", operation := some "list" } none "q" =
      ((serviceStep stA { service := some "filesystem", operation := some "list" }
          none "q").1, []) :=
  (reply_only_to_live_registered_target stA
      { service := some "filesystem", operation := some "list" } none "q").2 trivial

/-- C4: each of the four not-found cases — unknown service name (replied
to a live reply target), `load_driver`/`unload_driver` with an unknown
driver name, `read` of a never-written path, and `terminate_process`
with an unknown pid — produces a structured result with
`status = "error"`; all four paths are total functions of the embedding,
i.e. no exception ever reaches the caller. -/
theorem not_found_cases_are_error_results
    (st : KState) (m : Message) (exc : Option LoadStep) (fp : String)
    (dn tp : String) (p : Option String) :
    ((∀ sv, m.service = some sv → sv ∉ registeredServices) →
      ∀ d ∈ (MicroKernel.process_message st m exc fp).2,
        assocGet d.2.result "status" = some (Value.vstr "error")) ∧
    (assocGet st.devices dn = none →
      assocGet (DeviceManagerService._load_driver st (some dn) exc fp).2
          "status" = some (Value.vstr "error") ∧
      assocGet (DeviceManagerService._unload_driver st (some dn)).2
          "status" = some (Value.vstr "error")) ∧
    (assocGet st.fsFiles p = none →
      assocGet (FileSystemService.process_message st.fsFiles
          { operation := some "read", path := p }).2 "status" =
        some (Value.vstr "error")) ∧
    (assocGet st.processes tp = none →
      assocGet (ProcessScheduler.process_message st
          { operation := some "terminate_process", pid := some tp }).2 "status" =
        some (Value.vstr "error")) := by
  refine ⟨?_, ?_, ?_, ?_⟩
  · intro h d hd
    have hstep := serviceStep_not_registered st m exc fp h
    rcases hrt : m.reply_to with _ | rt
    · rw [process_message_reply_to_none st m exc fp hrt] at hd
      exact absurd hd (List.not_mem_nil d)
    · rw [process_message_reply_to_some st m exc fp rt hrt] at hd
      split_ifs at hd with hg
      · obtain rfl := List.mem_singleton.mp hd
        dsimp only
        rw [hstep]
        rfl
      · exact absurd hd (List.not_mem_nil d)
  · intro h
    have hlk : devLookup st (some dn) = none := by
      unfold devLookup
      dsimp only
      rw [h]
      rfl
    constructor
    · unfold DeviceManagerService._load_driver
      rw [hlk]
      rfl
    · unfold DeviceManagerService._unload_driver
      rw [hlk]
      rfl
  · intro h
    have hr : FileSystemService.process_message st.fsFiles
        { operation := some "read", path := p } =
        (match assocGet st.fsFiles p with
         | some c0 =>
             (st.fsFiles,
              [("status", Value.vstr "success"), ("operation", Value.vstr "read"),
               ("path", optVal p), ("content", optVal c0)])
         | none =>
             (st.fsFiles,
              [("status", Value.vstr "error"), ("operation", Value.vstr "read"),
               ("path", optVal p), ("error", Value.vstr "File not found")])) := rfl
    rw [hr, h]
    rfl
  · intro h
    have ht : MicroKernel.terminate_process st tp = (st, false) := by
      unfold MicroKernel.terminate_process
      rw [h]
    have hs : ProcessScheduler.process_message st
        { operation := some "terminate_process", pid := some tp } =
        ((MicroKernel.terminate_process st tp).1,
         [("status", Value.vstr
             (if (MicroKernel.terminate_process st tp).2 then "success" else "error")),
          ("operation", Value.vstr "terminate_process"),
          ("pid", optVal (some tp)),
          ("error", if (MicroKernel.terminate_process st tp).2 then Value.vnone
                    else Value.vstr
                      "Process not found or could not be terminated")]) := rfl
    rw [hs, ht]
    rfl

/-- Witness for C4: all four not-found cases at concrete inputs on the
concrete state `stA`. -/
theorem not_found_cases_are_error_results_witness :
    (∀ d ∈ (MicroKernel.process_message stA mUnknownService none "q").2,
        assocGet d.2.result "status" = some (Value.vstr "error")) ∧
    (assocGet (DeviceManagerService._load_driver stA (some "uv_sensor") none "q").2
        "status" = some (Value.vstr "error") ∧
     assocGet (DeviceManagerService._unload_driver stA (some "uv_sensor")).2
        "status" = some (Value.vstr "error")) ∧
    (assocGet (FileSystemService.process_message stA.fsFiles
        { operation := some "read", path := some "/nope" }).2 "status" =
      some (Value.vstr "error")) ∧
    (assocGet (ProcessScheduler.process_message stA
        { operation := some "terminate_process", pid := some "p9" }).2 "status" =
      some (Value.vstr "error")) := by
  have h := not_found_cases_are_error_results stA mUnknownService none "q"
    "uv_sensor" "p9" (some "/nope")
  refine ⟨h.1 ?_, h.2.1 rfl, h.2.2.1 rfl, h.2.2.2 rfl⟩
  intro sv hs
  injection hs with hv
  subst hv
  decide

/-- C6: when any step of loading a known, not-yet-loaded driver raises
(importing the module, constructing the `Process`, registering it, or
starting it), `_load_driver` returns `status = "error"` instead of
propagating, and the device map is unchanged: the entry keeps
`loaded = false`, `status = "available"`, gains no `pid` field, and
`driver_processes` gains no entry. -/
theorem load_driver_failure_leaves_device_unchanged
    (st : KState) (n : String) (e : DeviceEntry) (s : LoadStep) (fp : String)
    (hdev : assocGet st.devices n = some e) (hl : e.loaded = false)
    (hst : e.status = "available") (hpid : e.pid = none) :
    assocGet (DeviceManagerService._load_driver st (some n) (some s) fp).2
        "status" = some (Value.vstr "error") ∧
    (DeviceManagerService._load_driver st (some n) (some s) fp).1.devices =
      st.devices ∧
    (DeviceManagerService._load_driver st (some n) (some s) fp).1.driver_processes =
      st.driver_processes ∧
    assocGet (DeviceManagerService._load_driver st (some n) (some s) fp).1.devices
        n = some e ∧
    e.loaded = false ∧ e.status = "available" ∧ e.pid = none := by
  have hlk : devLookup st (some n) = some (n, e) := by
    unfold devLookup
    dsimp only
    rw [hdev]
    rfl
  have hl' : ¬(e.loaded = true) := by
    rw [hl]
    simp
  unfold DeviceManagerService._load_driver
  rw [hlk]
  dsimp only
  rw [if_neg hl']
  cases s <;> exact ⟨rfl, rfl, rfl, hdev, hl, hst, hpid⟩

/-- Witness for C6: a failed import of the known, unloaded driver
`heart_rate` in the concrete state `stA`. -/
theorem load_driver_failure_leaves_device_unchanged_witness :
    assocGet stA.devices "heart_rate" = some devA ∧
    assocGet (DeviceManagerService._load_driver stA (some "heart_rate")
        (some (LoadStep.importDriver "boom")) "q").2 "status" =
      some (Value.vstr "error") ∧
    (DeviceManagerService._load_driver stA (some "heart_rate")
        (some (LoadStep.importDriver "boom")) "q").1.devices = stA.devices ∧
    (DeviceManagerService._load_driver stA (some "heart_rate")
        (some (LoadStep.importDriver "boom")) "q").1.driver_processes =
      stA.driver_processes :=
  ⟨rfl,
   (load_driver_failure_leaves_device_unchanged stA "heart_rate" devA
      (LoadStep.importDriver "boom") "q" rfl rfl rfl rfl).1,
   (load_driver_failure_leaves_device_unchanged stA "heart_rate" devA
      (LoadStep.importDriver "boom") "q" rfl rfl rfl rfl).2.1,
   (load_driver_failure_leaves_device_unchanged stA "heart_rate" devA
      (LoadStep.importDriver "boom") "q" rfl rfl rfl rfl).2.2.1⟩

/-- C7: a scheduler `terminate_process` request for an unregistered pid
returns `status = "error"`; for a registered pid it returns
`status = "success"` and, once the kernel's `terminate_process` (with its
bounded grace wait) has completed, that pid is no longer a key of the
process registry. -/
theorem terminate_process_request_result (st : KState) (tp : String) :
    (assocGet st.processes tp = none →
      assocGet (ProcessScheduler.process_message st
          { operation := some "terminate_process", pid := some tp }).2 "status" =
        some (Value.vstr "error")) ∧
    (∀ pr, assocGet st.processes tp = some pr →
      assocGet (ProcessScheduler.process_message st
          { operation := some "terminate_process", pid := some tp }).2 "status" =
        some (Value.vstr "success") ∧
      assocGet (ProcessScheduler.process_message st
          { operation := some "terminate_process", pid := some tp }).1.processes
          tp = none) := by
  have hs : ProcessScheduler.process_message st
      { operation := some "terminate_process", pid := some tp } =
      ((MicroKernel.terminate_process st tp).1,
       [("status", Value.vstr
           (if (MicroKernel.terminate_process st tp).2 then "success" else "error")),
        ("operation", Value.vstr "terminate_process"),
        ("pid", optVal (some tp)),
        ("error", if (MicroKernel.terminate_process st tp).2 then Value.vnone
                  else Value.vstr
                    "Process not found or could not be terminated")]) := rfl
  constructor
  · intro h
    have ht : MicroKernel.terminate_process st tp = (st, false) := by
      unfold MicroKernel.terminate_process
      rw [h]
    rw [hs, ht]
    rfl
  · intro pr h
    have ht : MicroKernel.terminate_process st tp =
        ({ st with processes :=
             assocDel (assocSet st.processes tp { pr with running := false }) tp },
         true) := by
      unfold MicroKernel.terminate_process
      rw [h]
    constructor
    · rw [hs, ht]
      rfl
    · rw [hs, ht]
      exact assocGet_assocDel_self _ tp

/-- Witness for C7: terminating the unknown pid `p9` errors; terminating
the registered pid `p1` succeeds and removes it from the registry of the
concrete state `stA`. -/
theorem terminate_process_request_result_witness :
    assocGet (ProcessScheduler.process_message stA
        { operation := some "terminate_process", pid := some "p9" }).2 "status" =
      some (Value.vstr "error") ∧
    assocGet (ProcessScheduler.process_message stA
        { operation := some "terminate_process", pid := some "p1" }).2 "status" =
      some (Value.vstr "success") ∧
    assocGet (ProcessScheduler.process_message stA
        { operation := some "terminate_process", pid := some "p1" }).1.processes
        "p1" = none :=
  ⟨(terminate_process_request_result stA "p9").1 rfl,
   ((terminate_process_request_result stA "p1").2 procA rfl).1,
   ((terminate_process_request_result stA "p1").2 procA rfl).2⟩

/-- C8: for every target, `_run_wrapper` finishes with the process's
`running` flag false — whether the target returned normally or raised —
and when the target raises, the exception is caught inside the wrapper
(the embedding returns normally) and the failure is logged with the
process name and pid. -/
theorem run_wrapper_crash_isolation (p : Proc) (target : Proc → Proc × RunOutcome) :
    (Process._run_wrapper p target).1.running = false ∧
    (∀ e, (target p).2 = RunOutcome.exn e →
        (Process._run_wrapper p target).2 =
          ["Process " ++ (target p).1.name ++ " (PID: " ++ (target p).1.pid ++
           ") crashed: " ++ e]) ∧
    ((target p).2 = RunOutcome.ok → (Process._run_wrapper p target).2 = []) := by
  unfold Process._run_wrapper
  refine ⟨rfl, ?_, ?_⟩
  · intro e he
    dsimp only
    rw [he]
  · intro hok
    dsimp only
    rw [hok]

/-- Witness for C8: a target that raises `"boom"` on the concrete
process `procA`. -/
theorem run_wrapper_crash_isolation_witness :
    (crashTarget procA).2 = RunOutcome.exn "boom" ∧
    (Process._run_wrapper procA crashTarget).1.running = false ∧
    (Process._run_wrapper procA crashTarget).2 =
      ["Process " ++ (crashTarget procA).1.name ++ " (PID: " ++
       (crashTarget procA).1.pid ++ ") crashed: " ++ "boom"] :=
  ⟨rfl, (run_wrapper_crash_isolation procA crashTarget).1,
   (run_wrapper_crash_isolation procA crashTarget).2.1 "boom" rfl⟩

end LegoOS
